import Mathlib

/-!
Verification of the cascading selection state machine of the F1 undercut
predictor front end (`static/js/app.js`).

The class `F1UndercutApp` holds the session selection state
(`currentYear`, `currentRound`, `currentLap`, `chaserDriver`,
`defenderDriver`, `standings`) together with the DOM surfaces it drives.
We embed the state fields plus the DOM attributes the control flow reads
or that the specification talks about (disabled flags, loading
indicators, the lap slider range/value, the prediction-result panel,
and the list of visible error messages).  Purely presentational DOM
content (option lists, row markup, text labels that no code path reads
back) is not tracked.

Each `async` method is split at its `await fetch(...)` suspension point:
the synchronous prefix becomes a pure function that returns the new
state together with the list of network requests it issues, and the
continuation after the `await` becomes a completion handler taking the
parsed response (`none` models a transport/JSON error caught by the
surrounding `try/catch`; `some` carries the parsed body).  A small-step
trace machine (`step` / `runTrace`) then replays arbitrary interleavings
of user input events and network completions.
-/

namespace F1App

/-- A row of `data.standings`: `{ position, driver, team, compound }`. -/
structure StandingRow where
  position : Int
  driver : String
  team : String
  compound : String
deriving Repr, DecidableEq

/-- An entry of `data.events`: `{ RoundNumber, EventName }`. -/
structure RaceEvent where
  RoundNumber : Int
  EventName : String
deriving Repr, DecidableEq

/-- Body of a 2xx `/api/predict` response: `{ success, probability, confidence }`. -/
structure PredictionData where
  success : Bool
  probability : Rat
  confidence : String
deriving Repr, DecidableEq

/-- Outcome of an `/api/predict` request that produced an HTTP response:
`ok` is a 2xx response with its parsed body, `err` is a non-2xx response
whose body may carry an `error` field (`none` when absent). -/
inductive PredictOutcome
  | ok (d : PredictionData)
  | err (errText : Option String)
deriving Repr, DecidableEq

/-- The `F1UndercutApp` instance fields together with the tracked DOM
state.  `Option` values model JavaScript fields that can hold `null`
(`none`) or a value; a `some ""` select value is distinct from `null`
but equally falsy (see `strTruthy`). -/
structure App where
  currentYear : Option String
  currentRound : Option String
  currentLap : Option Int
  chaserDriver : Option String
  defenderDriver : Option String
  standings : List StandingRow
  /-- `eventSelect` currently shows the `Loading...` placeholder set by
  `showLoadingInSelect`. -/
  eventSelectLoading : Bool
  eventSelectDisabled : Bool
  /-- `standingsList` carries the `loading-overlay` class and spinner set
  by `showLoadingInPanel('standingsList')`. -/
  standingsPanelLoading : Bool
  lapSliderMin : Int
  lapSliderMax : Int
  lapSliderValue : Int
  lapSliderDisabled : Bool
  chaserSelectDisabled : Bool
  defenderSelectDisabled : Bool
  predictBtnDisabled : Bool
  /-- `predictBtn` carries the `loading` class and spinner set by `showLoading`. -/
  predictBtnLoading : Bool
  /-- `predictionResult.style.display` is `block` rather than `none`. -/
  predictionResultVisible : Bool
  successBadgeText : String
  confidenceText : String
  /-- The `.error-message` elements currently in the document, newest
  first.  `showError` removes all existing ones before inserting, so the
  list never holds more than one element; the 5-second auto-removal
  timer only ever shrinks it further and is not modelled. -/
  errorMessages : List String
deriving Repr, DecidableEq

/-- JavaScript truthiness of a string-or-null field: `null` and the
empty string are falsy. -/
def strTruthy : Option String → Bool
  | none => false
  | some s => !(s == "")

/-- JavaScript truthiness of `currentLap` (`null` or an integer from
`parseInt`): `null` and `0` are falsy. -/
def lapTruthy : Option Int → Bool
  | none => false
  | some n => !(n == 0)

/-- `Math.min(...xs)` over a nonempty spread (the code only applies it
to nonempty arrays; the `[]` case is unreachable there). -/
def listMin : List Int → Int
  | [] => 0
  | x :: xs => xs.foldl min x

/-- `Math.max(...xs)` over a nonempty spread. -/
def listMax : List Int → Int
  | [] => 0
  | x :: xs => xs.foldl max x

/-- JavaScript `o || d` for a possibly-missing string field: `undefined`,
`null` and `""` all fall through to the default. -/
def jsOr (o : Option String) (d : String) : String :=
  match o with
  | none => d
  | some s => if s == "" then d else s

/-- JavaScript `data.xs && data.xs.length > 0` for a possibly-missing
array field. -/
def jsNonempty {α : Type} (o : Option (List α)) : Bool :=
  match o with
  | none => false
  | some l => l.length > 0

/-- Network requests the front end can issue, with the parameters baked
into the URL or body at issue time. -/
inductive Req
  | events (year : String)
  | laps (year round : String)
  | standings (year round : String) (lap : Int)
  | predict (year round : String) (lap : Int) (chaser defender : String)
deriving Repr, DecidableEq

/-! ### DOM helper methods (lines 62-90, 362-397 of app.js) -/

/-- `showError(message)`: removes every existing `.error-message`
element, then inserts one new message (lines 376-397).  The 5-second
auto-removal only removes this same element later and never adds one. -/
def showError (s : App) (m : String) : App :=
  { s with errorMessages := [m] }

/-- `showLoadingInSelect('eventSelect')` (its only call site): replaces
the options with a `Loading...` placeholder and disables the select. -/
def showLoadingInSelect (s : App) : App :=
  { s with eventSelectLoading := true, eventSelectDisabled := true }

/-- `showLoadingInPanel('standingsList')` (its only call target). -/
def showLoadingInPanel (s : App) : App :=
  { s with standingsPanelLoading := true }

/-- `hideLoadingInPanel('standingsList')`. -/
def hideLoadingInPanel (s : App) : App :=
  { s with standingsPanelLoading := false }

/-- `showLoading()`: puts the predict button into its busy state. -/
def showLoading (s : App) : App :=
  { s with predictBtnLoading := true, predictBtnDisabled := true }

/-- `hideLoading()`: restores the predict button to idle and enabled. -/
def hideLoading (s : App) : App :=
  { s with predictBtnLoading := false, predictBtnDisabled := false }

/-- `clearSelections()` (lines 339-360): nulls `currentLap`,
`chaserDriver`, `defenderDriver`, resets and disables the lap slider and
driver selects, and hides the prediction result.  It does NOT touch
`currentRound` or the `standings` array field; the `standingsList`
markup is replaced by a static empty-state placeholder (untracked). -/
def clearSelections (s : App) : App :=
  { s with currentLap := none, chaserDriver := none, defenderDriver := none,
           lapSliderValue := 1, lapSliderDisabled := true,
           chaserSelectDisabled := true, defenderSelectDisabled := true,
           predictionResultVisible := false }

/-! ### Rendering methods (lines 186-278) -/

/-- `updateStandingsList()` only rebuilds the `standingsList` markup from
`this.standings` (rows, highlighting, click handlers); it reads state
and writes untracked DOM content, so on the tracked state it is the
identity. -/
def updateStandingsList (s : App) : App := s

/-- `updateDriverSelects()` (lines 226-253): rebuilds both driver
selects from `this.standings`; disables them when the list is empty,
enables them otherwise (the `.value` restoration writes untracked DOM
content). -/
def updateDriverSelects (s : App) : App :=
  if s.standings.isEmpty then
    { s with chaserSelectDisabled := true, defenderSelectDisabled := true }
  else
    { s with chaserSelectDisabled := false, defenderSelectDisabled := false }

/-- `updateSelectedDrivers()` (lines 270-278): re-renders the standings
list, then enables the predict button exactly when both driver fields
are truthy (the chaser/defender box class toggles are untracked). -/
def updateSelectedDrivers (s : App) : App :=
  let s := updateStandingsList s
  { s with predictBtnDisabled := !(strTruthy s.chaserDriver && strTruthy s.defenderDriver) }

/-- `selectDriver(driver)` (lines 255-268): first-empty-slot assignment;
when both slots are filled the `else` branch overwrites the defender
(the `else if` and `else` bodies are textually identical in the
source). -/
def selectDriver (s : App) (driver : String) : App :=
  let s :=
    if !(strTruthy s.chaserDriver) then
      { s with chaserDriver := some driver }
    else if !(strTruthy s.defenderDriver) then
      { s with defenderDriver := some driver }
    else
      { s with defenderDriver := some driver }
  updateSelectedDrivers s

/-! ### Data loaders, split at their `await fetch` suspension points -/

/-- Synchronous prefix of `loadEvents(year)` (lines 92-97): log, show the
loading placeholder in the event select, issue the request. -/
def loadEventsStart (s : App) (year : String) : App × List Req :=
  (showLoadingInSelect s, [Req.events year])

/-- Continuation of `loadEvents` after `await` (lines 98-119).
`res = none` is the `catch` branch (transport/JSON error); `some evs`
carries the parsed body's possibly-missing `events` field.  On any
response the select options are rebuilt (clearing the `Loading...`
placeholder); the select is re-enabled only for a nonempty list; the
empty case shows an error; both response branches end in
`clearSelections()`, which the `catch` branch never runs. -/
def loadEventsDone (s : App) (res : Option (Option (List RaceEvent))) : App :=
  match res with
  | none => showError s "Failed to load races"
  | some evs =>
    let s := { s with eventSelectLoading := false }
    let s :=
      if jsNonempty evs then
        { s with eventSelectDisabled := false }
      else
        showError s "No races found for this year"
    clearSelections s

/-- Synchronous prefix of `loadStandings(year, round, lap)`
(lines 166-171): show the panel spinner, issue the request. -/
def loadStandingsStart (s : App) (year round : String) (lap : Int) : App × List Req :=
  (showLoadingInPanel s, [Req.standings year round lap])

/-- Continuation of `loadStandings` after `await` (lines 172-183).  The
success branch stores `data.standings || []` unconditionally — no
staleness/generation check compares the response against the current
selection — then re-renders.  The `catch` branch hides the spinner and
shows an error. -/
def loadStandingsDone (s : App) (res : Option (Option (List StandingRow))) : App :=
  match res with
  | none => showError (hideLoadingInPanel s) "Failed to load driver standings"
  | some payload =>
    let s := hideLoadingInPanel s
    let s := { s with standings := payload.getD [] }
    updateDriverSelects (updateStandingsList s)

/-- Synchronous prefix of `loadLaps(year, round)` (lines 122-127). -/
def loadLapsStart (s : App) (year round : String) : App × List Req :=
  (showLoadingInPanel s, [Req.laps year round])

/-- Continuation of `loadLaps` after `await` (lines 128-163).  On a
response the spinner is hidden first; a nonempty `laps` array is
filtered to `lap >= 1`; a nonempty filtered set configures the slider
(`min = Math.max(1, Math.min(...validLaps))`, `max = Math.max(...)`,
value = min, enabled), sets `currentLap` from the slider value, and
synchronously starts `loadStandings(year, round, currentLap)` with the
`year`/`round` arguments captured when the laps request was issued.  An
all-below-1 set and an empty/missing set show their two distinct errors
and issue nothing.  The `catch` branch hides the spinner and shows a
transport error. -/
def loadLapsDone (s : App) (year round : String) (res : Option (Option (List Int))) :
    App × List Req :=
  match res with
  | none => (showError (hideLoadingInPanel s) "Failed to load lap data", [])
  | some lapsOpt =>
    let s := hideLoadingInPanel s
    if jsNonempty lapsOpt then
      let laps := lapsOpt.getD []
      let validLaps := laps.filter (fun lap => lap ≥ 1)
      if validLaps.length > 0 then
        let minLap := max 1 (listMin validLaps)
        let maxLap := listMax validLaps
        let s := { s with lapSliderMin := minLap, lapSliderMax := maxLap,
                          lapSliderValue := minLap, lapSliderDisabled := false,
                          currentLap := some minLap }
        loadStandingsStart s year round minLap
      else
        (showError s "No valid lap data available (all laps are below 1)", [])
    else
      (showError s "No pit stop data available for this race", [])

/-! ### Prediction (lines 280-337) -/

/-- `validateSelection()` (lines 320-337): the three-stage gate, first
failure wins and shows a single error message. -/
def validateSelection (s : App) : Bool × App :=
  if !(strTruthy s.currentYear && strTruthy s.currentRound && lapTruthy s.currentLap) then
    (false, showError s "Please select year, race, and lap")
  else if !(strTruthy s.chaserDriver && strTruthy s.defenderDriver) then
    (false, showError s "Please select both chaser and defender drivers")
  else if s.chaserDriver == s.defenderDriver then
    (false, showError s "Chaser and defender must be different drivers")
  else
    (true, s)

/-- Synchronous prefix of `predictUndercut()` (lines 280-295): an early
return when the gate fails (no request), otherwise the busy indicator
goes up and the predict request is issued with the current selection. -/
def predictUndercut (s : App) : App × List Req :=
  match validateSelection s with
  | (false, s) => (s, [])
  | (true, s) =>
    (showLoading s,
     [Req.predict (s.currentYear.getD "") (s.currentRound.getD "")
        (s.currentLap.getD 0) (s.chaserDriver.getD "") (s.defenderDriver.getD "")])

/-- `displayPrediction(data)` (lines 312-318): shows the result panel
and fills in the badge and confidence texts (the probability percentage
is floating-point formatting, untracked). -/
def displayPrediction (s : App) (d : PredictionData) : App :=
  { s with predictionResultVisible := true,
           successBadgeText := if d.success then "SUCCESS" else "FAIL",
           confidenceText := d.confidence ++ " Confidence" }

/-- Continuation of `predictUndercut` after `await` (lines 297-309):
`hideLoading()` runs on every settled outcome; a 2xx response renders
the result, a non-2xx one shows `data.error || 'Prediction failed'`,
and the `catch` branch shows the generic transport message. -/
def predictDoneHandler (s : App) (res : Option PredictOutcome) : App :=
  match res with
  | none => showError (hideLoading s) "Failed to get prediction"
  | some r =>
    let s := hideLoading s
    match r with
    | .ok d => displayPrediction s d
    | .err e => showError s (jsOr e "Prediction failed")

/-! ### Input event handlers (`bindEvents`, lines 17-60) -/

/-- `yearSelect` change handler (lines 19-24): store the raw value, and
start `loadEvents` only when it is truthy. -/
def onYearInput (s : App) (v : String) : App × List Req :=
  let s := { s with currentYear := some v }
  if strTruthy s.currentYear then
    loadEventsStart s v
  else
    (s, [])

/-- `eventSelect` change handler (lines 27-32): store the raw value,
and start `loadLaps` only when both year and round are truthy. -/
def onRoundInput (s : App) (v : String) : App × List Req :=
  let s := { s with currentRound := some v }
  if strTruthy s.currentYear && strTruthy s.currentRound then
    loadLapsStart s (s.currentYear.getD "") v
  else
    (s, [])

/-- `lapSlider` input handler (lines 35-43): the user moved the slider
to `v`; store `parseInt(e.target.value)`, update the lap text panels
(untracked), and start `loadStandings` only when year, round and lap
are all truthy. -/
def onLapInput (s : App) (v : Int) : App × List Req :=
  let s := { s with currentLap := some v, lapSliderValue := v }
  if strTruthy s.currentYear && strTruthy s.currentRound && lapTruthy s.currentLap then
    loadStandingsStart s (s.currentYear.getD "") (s.currentRound.getD "") v
  else
    (s, [])

/-- `chaserSelect` change handler (lines 46-49). -/
def onChaserInput (s : App) (v : String) : App :=
  updateSelectedDrivers { s with chaserDriver := some v }

/-- `defenderSelect` change handler (lines 51-54). -/
def onDefenderInput (s : App) (v : String) : App :=
  updateSelectedDrivers { s with defenderDriver := some v }

/-! ### The event/trace machine -/

/-- An event the single JavaScript thread can process to completion: a
user input callback, or the arrival of a network completion.  Each
completion event carries the parameters the corresponding `async`
continuation closed over, and `none`/`some` for transport error versus
parsed body. -/
inductive Ev
  | yearInput (v : String)
  | roundInput (v : String)
  | lapInput (v : Int)
  | chaserInput (v : String)
  | defenderInput (v : String)
  | predictClick
  | eventsDone (year : String) (res : Option (Option (List RaceEvent)))
  | lapsDone (year round : String) (res : Option (Option (List Int)))
  | standingsDone (year round : String) (lap : Int) (res : Option (Option (List StandingRow)))
  | predictDone (res : Option PredictOutcome)
deriving Repr, DecidableEq

/-- The in-flight request a completion event answers (`predictDone`
needs no tag: its continuation uses no captured parameters). -/
def reqOfEv : Ev → Option Req
  | .eventsDone y _ => some (.events y)
  | .lapsDone y r _ => some (.laps y r)
  | .standingsDone y r l _ => some (.standings y r l)
  | _ => none

/-- One scheduler step: run the handler for the event and collect the
requests it issues. -/
def step (s : App) (e : Ev) : App × List Req :=
  match e with
  | .yearInput v => onYearInput s v
  | .roundInput v => onRoundInput s v
  | .lapInput v => onLapInput s v
  | .chaserInput v => (onChaserInput s v, [])
  | .defenderInput v => (onDefenderInput s v, [])
  | .predictClick => predictUndercut s
  | .eventsDone _ res => (loadEventsDone s res, [])
  | .lapsDone y r res => loadLapsDone s y r res
  | .standingsDone _ _ _ res => (loadStandingsDone s res, [])
  | .predictDone res => (predictDoneHandler s res, [])

/-- Run a whole event trace, collecting every request issued along it. -/
def runTrace (s : App) : List Ev → App × List Req
  | [] => (s, [])
  | e :: es =>
    let p := step s e
    let q := runTrace p.1 es
    (q.1, p.2 ++ q.2)

/-- A trace is well formed relative to the requests already issued when
every completion event answers a request that was actually issued
earlier (the network can only deliver responses to requests that were
sent; it may reorder and duplicate them). -/
def traceOk (s : App) (issued : List Req) : List Ev → Bool
  | [] => true
  | e :: es =>
    let ok := match reqOfEv e with
      | some q => decide (q ∈ issued)
      | none => true
    let p := step s e
    ok && traceOk p.1 (issued ++ p.2) es

/-- The state built by the constructor (all selection fields `null`,
empty standings) together with the initial attributes of the page's
controls: per the cascade design the dependent surfaces start disabled
and idle (the page markup itself is outside the scripted core). -/
def initApp : App :=
  { currentYear := none, currentRound := none, currentLap := none,
    chaserDriver := none, defenderDriver := none, standings := [],
    eventSelectLoading := false, eventSelectDisabled := true,
    standingsPanelLoading := false,
    lapSliderMin := 1, lapSliderMax := 1, lapSliderValue := 1,
    lapSliderDisabled := true,
    chaserSelectDisabled := true, defenderSelectDisabled := true,
    predictBtnDisabled := true, predictBtnLoading := false,
    predictionResultVisible := false,
    successBadgeText := "", confidenceText := "",
    errorMessages := [] }

/-- A request has all the selection parameters it was built from
non-empty (for the lap, nonzero — the falsy integer). -/
def reqParamsSet : Req → Bool
  | .events y => !(y == "")
  | .laps y r => !(y == "") && !(r == "")
  | .standings y r l => !(y == "") && !(r == "") && !(l == 0)
  | .predict y r l c d =>
      !(y == "") && !(r == "") && !(l == 0) && !(c == "") && !(d == "")

/-- A session in which year 2023, round 5 and lap 12 are selected and
both driver slots hold `VER`. -/
def sVERVER : App :=
  { initApp with currentYear := some "2023", currentRound := some "5",
                 currentLap := some 12,
                 chaserDriver := some "VER", defenderDriver := some "VER" }

/-- A session right after a standings list `[A, B, C]` has loaded, with
no driver selected yet. -/
def sABC : App :=
  { initApp with currentYear := some "2023", currentRound := some "1",
                 currentLap := some 1,
                 standings := [⟨1, "A", "Team A", "SOFT"⟩,
                               ⟨2, "B", "Team B", "MEDIUM"⟩,
                               ⟨3, "C", "Team C", "HARD"⟩],
                 chaserSelectDisabled := false, defenderSelectDisabled := false,
                 lapSliderDisabled := false }

/-- A full session trace: select 2023, load its races, select round 1,
load laps and the lap-1 standings, pick VER against HAM, run a
successful prediction, then change the race to round 2. -/
def raceChangeTrace : List Ev :=
  [ .yearInput "2023",
    .eventsDone "2023" (some (some [⟨1, "Bahrain"⟩, ⟨2, "Jeddah"⟩])),
    .roundInput "1",
    .lapsDone "2023" "1" (some (some [1, 2, 3])),
    .standingsDone "2023" "1" 1
      (some (some [⟨1, "VER", "Red Bull", "SOFT"⟩, ⟨2, "HAM", "Mercedes", "HARD"⟩])),
    .chaserInput "VER",
    .defenderInput "HAM",
    .predictClick,
    .predictDone (some (.ok ⟨true, 367/500, "High"⟩)),
    .roundInput "2" ]

/-- The standings payload answering the lap-5 request. -/
def lap5Standings : List StandingRow := [⟨1, "HAM", "Mercedes", "HARD"⟩]

/-- The stale standings payload answering the superseded lap-3 request. -/
def lap3Standings : List StandingRow := [⟨1, "VER", "Red Bull", "SOFT"⟩]

/-- A trace in which the laps response defaults the lap to 3 (issuing a
standings request tagged lap 3), the user then moves the slider to 5
(issuing a lap-5 request), the lap-5 response arrives, and finally the
stale lap-3 response arrives out of order. -/
def staleStandingsTrace : List Ev :=
  [ .yearInput "2023",
    .eventsDone "2023" (some (some [⟨5, "Monaco"⟩])),
    .roundInput "5",
    .lapsDone "2023" "5" (some (some [3, 5])),
    .lapInput 5,
    .standingsDone "2023" "5" 5 (some (some lap5Standings)),
    .standingsDone "2023" "5" 3 (some (some lap3Standings)) ]

/-- A trace prefix in which a laps request for round 1 is in flight when
the user re-selects the placeholder race option (value `""`), unsetting
the round. -/
def unsetRoundPrefix : List Ev :=
  [ .yearInput "2023",
    .eventsDone "2023" (some (some [⟨1, "Bahrain"⟩])),
    .roundInput "1",
    .roundInput "" ]

/-- The delayed laps response for the in-flight round-1 request. -/
def lateLapsEv : Ev := .lapsDone "2023" "1" (some (some [1, 2]))

/-- A short healthy trace used to exercise the request-parameter
invariant on a concrete run. -/
def eventsOkTrace : List Ev :=
  [ .yearInput "2024",
    .eventsDone "2024" (some (some [⟨1, "Melbourne"⟩])),
    .roundInput "1" ]

/-- A trace in which the events request fails in transport after the
`Loading...` placeholder went up. -/
def eventsErrorTrace : List Ev :=
  [ .yearInput "2023", .eventsDone "2023" none ]

/-- A trace in which round 1 loads a valid lap set (enabling the lap
slider) and the user then switches to round 2, whose lap set contains
only laps below 1. -/
def invalidLapsTrace : List Ev :=
  [ .yearInput "2023",
    .eventsDone "2023" (some (some [⟨1, "Bahrain"⟩, ⟨2, "Jeddah"⟩])),
    .roundInput "1",
    .lapsDone "2023" "1" (some (some [1, 2])),
    .roundInput "2",
    .lapsDone "2023" "2" (some (some [-3, -1, 0])) ]

/-! ## Helper lemmas -/

theorem strTruthy_getD {o : Option String} (h : strTruthy o = true) :
    (o.getD "" == "") = false := by
  cases o with
  | none => simp [strTruthy] at h
  | some s => simpa [strTruthy, Option.getD] using h

theorem lapTruthy_getD {o : Option Int} (h : lapTruthy o = true) :
    (o.getD 0 == 0) = false := by
  cases o with
  | none => simp [lapTruthy] at h
  | some n => simpa [lapTruthy, Option.getD] using h

theorem validateSelection_true {s : App} (h : (validateSelection s).1 = true) :
    (strTruthy s.currentYear && strTruthy s.currentRound && lapTruthy s.currentLap) = true ∧
    (strTruthy s.chaserDriver && strTruthy s.defenderDriver) = true := by
  unfold validateSelection at h
  by_cases h1 : (strTruthy s.currentYear && strTruthy s.currentRound
      && lapTruthy s.currentLap) = true
  · by_cases h2 : (strTruthy s.chaserDriver && strTruthy s.defenderDriver) = true
    · exact ⟨h1, h2⟩
    · simp [h1, h2] at h
  · simp [h1] at h

/-! ## Claim C2: staleness handling of standings responses -/

/-- Claim C2 counterexample: a well-formed trace in which the laps
response defaults the lap to 3 and issues a lap-3 standings request,
the user then moves the slider to 5, the lap-5 response arrives and
becomes current, and the stale lap-3 response arrives last — and
overwrites the current standings list instead of being discarded. -/
theorem stale_standings_overwrite_cex :
    traceOk initApp [] staleStandingsTrace = true
  ∧ (runTrace initApp staleStandingsTrace).1.currentLap = some 5
  ∧ (runTrace initApp staleStandingsTrace).1.standings = lap3Standings
  ∧ lap3Standings ≠ lap5Standings := by
  refine ⟨rfl, rfl, rfl, ?_⟩
  decide

/-- Claim C2 (amended): the standings completion handler performs no
staleness check at all — whatever request tag an arriving response
answers, and whatever the current selection is, its payload replaces
the standings list wholesale (last write wins). -/
theorem standings_response_last_write_wins (s : App) (year round : String) (lap : Int)
    (payload : Option (List StandingRow)) :
    ((step s (.standingsDone year round lap (some payload))).1).standings = payload.getD []
  ∧ ((step s (.standingsDone year round lap (some payload))).1).currentLap = s.currentLap := by
  constructor <;>
    simp [step, loadStandingsDone, hideLoadingInPanel, updateStandingsList,
      updateDriverSelects] <;> split <;> rfl

/-! ## Claim C10: predict-button eligibility after driver assignment -/

/-- Claim C10: after any driver assignment — a chaser pick-list change,
a defender pick-list change, or a standings-row click — the predict
button is disabled exactly when one of the two driver fields is empty;
no chaser-equals-defender comparison is involved, so two identical
truthy selections leave the button enabled. -/
theorem predict_button_tracks_driver_pair (s : App) (v : String) (d : String) :
    ((onChaserInput s v).predictBtnDisabled
      = !(strTruthy (onChaserInput s v).chaserDriver
          && strTruthy (onChaserInput s v).defenderDriver))
  ∧ ((onDefenderInput s v).predictBtnDisabled
      = !(strTruthy (onDefenderInput s v).chaserDriver
          && strTruthy (onDefenderInput s v).defenderDriver))
  ∧ ((selectDriver s d).predictBtnDisabled
      = !(strTruthy (selectDriver s d).chaserDriver
          && strTruthy (selectDriver s d).defenderDriver)) := by
  refine ⟨?_, ?_, ?_⟩
  · simp [onChaserInput, updateSelectedDrivers, updateStandingsList]
  · simp [onDefenderInput, updateSelectedDrivers, updateStandingsList]
  · simp only [selectDriver, updateSelectedDrivers, updateStandingsList]

/-! ## Claim C9: the predict action always settles out of its busy state -/

/-- Claim C9: however the prediction request settles — transport error,
2xx success, or non-2xx failure — the predict button leaves its busy
state and is re-enabled; on a non-2xx response the surfaced message is
the server's `error` text, falling back to `Prediction failed` when it
is absent or empty. -/
theorem predict_always_settles_idle (s : App) (res : Option PredictOutcome)
    (e : Option String) :
    ((predictDoneHandler s res).predictBtnLoading = false)
  ∧ ((predictDoneHandler s res).predictBtnDisabled = false)
  ∧ (res = some (.err e) →
      (predictDoneHandler s res).errorMessages = [jsOr e "Prediction failed"]) := by
  refine ⟨?_, ?_, ?_⟩
  · cases res with
    | none => rfl
    | some r => cases r <;> rfl
  · cases res with
    | none => rfl
    | some r => cases r <;> rfl
  · intro h
    subst h
    rfl

/-- Claim C9 witness: a non-2xx response with no `error` field settles
the button back to idle and shows the generic fallback. -/
theorem predict_always_settles_idle_witness :
    ((predictDoneHandler initApp (some (.err none))).predictBtnLoading = false)
  ∧ ((predictDoneHandler initApp (some (.err none))).predictBtnDisabled = false)
  ∧ ((predictDoneHandler initApp (some (.err none))).errorMessages
      = ["Prediction failed"]) :=
  ⟨(predict_always_settles_idle initApp (some (.err none)) none).1,
   (predict_always_settles_idle initApp (some (.err none)) none).2.1,
   (predict_always_settles_idle initApp (some (.err none)) none).2.2 rfl⟩

/-! ## Claim C6: the click-to-assign policy -/

/-- Claim C6: clicking a standings row assigns the driver to the first
empty slot; once both slots are filled the click overwrites the
defender and the chaser is never changed. -/
theorem selectDriver_policy (s : App) (d : String) :
    (strTruthy s.chaserDriver = false →
      (selectDriver s d).chaserDriver = some d
      ∧ (selectDriver s d).defenderDriver = s.defenderDriver)
  ∧ (strTruthy s.chaserDriver = true →
      (selectDriver s d).chaserDriver = s.chaserDriver
      ∧ (selectDriver s d).defenderDriver = some d) := by
  constructor
  · intro h
    simp [selectDriver, updateSelectedDrivers, updateStandingsList, h]
  · intro h
    by_cases h2 : strTruthy s.defenderDriver = true
    · simp [selectDriver, updateSelectedDrivers, updateStandingsList, h, h2]
    · simp only [Bool.not_eq_true] at h2
      simp [selectDriver, updateSelectedDrivers, updateStandingsList, h, h2]

/-- Claim C6 witness: from the loaded `[A, B, C]` standings with no
prior selection, clicking A, then B, then C ends with chaser `A` and
defender `C`. -/
theorem selectDriver_policy_witness :
    (selectDriver (selectDriver (selectDriver sABC "A") "B") "C").chaserDriver = some "A"
  ∧ (selectDriver (selectDriver (selectDriver sABC "A") "B") "C").defenderDriver
      = some "C" := by
  have h3 := (selectDriver_policy (selectDriver (selectDriver sABC "A") "B") "C").2
    (by decide)
  exact ⟨h3.1.trans (by decide), h3.2⟩

/-! ## Claim C5: the prediction validation gate -/

/-- Claim C5: the gate checks completeness of year/round/lap, then
completeness of the driver pair, then distinctness, in that order; the
first failing check replaces any visible error with its own single
message, and a failed gate short-circuits `predictUndercut` before any
request is issued. -/
theorem validateSelection_gate (s : App) :
    ((strTruthy s.currentYear && strTruthy s.currentRound && lapTruthy s.currentLap) = false →
      validateSelection s = (false, showError s "Please select year, race, and lap"))
  ∧ ((strTruthy s.currentYear && strTruthy s.currentRound && lapTruthy s.currentLap) = true →
      (strTruthy s.chaserDriver && strTruthy s.defenderDriver) = false →
      validateSelection s = (false, showError s "Please select both chaser and defender drivers"))
  ∧ ((strTruthy s.currentYear && strTruthy s.currentRound && lapTruthy s.currentLap) = true →
      (strTruthy s.chaserDriver && strTruthy s.defenderDriver) = true →
      (s.chaserDriver == s.defenderDriver) = true →
      validateSelection s = (false, showError s "Chaser and defender must be different drivers"))
  ∧ ((validateSelection s).1 = false → predictUndercut s = ((validateSelection s).2, [])) := by
  refine ⟨?_, ?_, ?_, ?_⟩
  · intro h1
    simp [validateSelection, h1]
  · intro h1 h2
    simp [validateSelection, h1, h2]
  · intro h1 h2 h3
    simp [validateSelection, h1, h2, h3]
  · intro h
    rcases hv : validateSelection s with ⟨b, t⟩
    rw [hv] at h
    simp only at h
    subst h
    simp [predictUndercut, hv]

/-- Claim C5 witness: with year 2023, round 5, lap 12 and both slots
holding `VER`, the third check fires with its message and
`predictUndercut` issues no request. -/
theorem validateSelection_gate_witness :
    validateSelection sVERVER
      = (false, showError sVERVER "Chaser and defender must be different drivers")
  ∧ predictUndercut sVERVER
      = (showError sVERVER "Chaser and defender must be different drivers", []) := by
  have h := validateSelection_gate sVERVER
  have h3 := h.2.2.1 (by decide) (by decide) (by decide)
  refine ⟨h3, ?_⟩
  have h4 := h.2.2.2 (by rw [h3])
  rw [h4, h3]

/-! ## Claim C7: the successful laps path -/

theorem foldl_min_le {a : Int} : ∀ (xs : List Int) (x : Int),
    a ≤ x → (∀ y ∈ xs, a ≤ y) → a ≤ xs.foldl min x := by
  intro xs
  induction xs with
  | nil => intro x hx _; simpa using hx
  | cons y ys ih =>
    intro x hx hall
    simp only [List.foldl_cons]
    exact ih (min x y) (le_min hx (hall y (by simp)))
      (fun z hz => hall z (by simp [hz]))

/-- Every element bound below carries over to `listMin`. -/
theorem listMin_ge {l : List Int} {a : Int} (hne : l ≠ []) (h : ∀ x ∈ l, a ≤ x) :
    a ≤ listMin l := by
  cases l with
  | nil => exact absurd rfl hne
  | cons x xs =>
    exact foldl_min_le xs x (h x (by simp)) (fun y hy => h y (by simp [hy]))

/-- Claim C7: a laps response whose filtered (`lap >= 1`) set is
nonempty configures the slider to exactly the `[min, max]` range of the
filtered set, defaults the active lap to `max(1, min(validLaps))`
(which equals the filtered minimum), enables the slider, and
immediately puts the standings panel into loading while issuing the
standings request for that default lap. -/
theorem loadLaps_valid_sets_range (s : App) (year round : String) (laps : List Int)
    (h : (laps.filter (fun lap => lap ≥ 1)).length > 0) :
    ((loadLapsDone s year round (some (some laps))).1).lapSliderMin
        = listMin (laps.filter (fun lap => lap ≥ 1))
  ∧ ((loadLapsDone s year round (some (some laps))).1).lapSliderMax
        = listMax (laps.filter (fun lap => lap ≥ 1))
  ∧ ((loadLapsDone s year round (some (some laps))).1).currentLap
        = some (max 1 (listMin (laps.filter (fun lap => lap ≥ 1))))
  ∧ ((loadLapsDone s year round (some (some laps))).1).lapSliderDisabled = false
  ∧ ((loadLapsDone s year round (some (some laps))).1).standingsPanelLoading = true
  ∧ (loadLapsDone s year round (some (some laps))).2
        = [Req.standings year round (max 1 (listMin (laps.filter (fun lap => lap ≥ 1))))] := by
  have hraw : laps.length > 0 := by
    rcases laps with _ | ⟨x, xs⟩
    · simp at h
    · simp
  have hne : laps.filter (fun lap => lap ≥ 1) ≠ [] := by
    intro hnil
    rw [hnil] at h
    simp at h
  have hmin : (1 : Int) ≤ listMin (laps.filter (fun lap => lap ≥ 1)) :=
    listMin_ge hne (fun x hx => by
      have := List.of_mem_filter hx
      simpa using this)
  have hmax : max 1 (listMin (laps.filter (fun lap => lap ≥ 1)))
      = listMin (laps.filter (fun lap => lap ≥ 1)) := max_eq_right hmin
  refine ⟨?_, ?_, ?_, ?_, ?_, ?_⟩ <;>
    simp [loadLapsDone, jsNonempty, hraw, h, hideLoadingInPanel, loadStandingsStart,
      showLoadingInPanel, hmax]

/-- Claim C7 witness: for the lap set `[-2, -1, 0, 1, 3, 5]` the slider
range becomes `[1, 5]`, the default lap is 1, and the standings request
for lap 1 goes out. -/
theorem loadLaps_valid_sets_range_witness :
    ((loadLapsDone initApp "2023" "1" (some (some [-2, -1, 0, 1, 3, 5]))).1).lapSliderMin = 1
  ∧ ((loadLapsDone initApp "2023" "1" (some (some [-2, -1, 0, 1, 3, 5]))).1).lapSliderMax = 5
  ∧ ((loadLapsDone initApp "2023" "1" (some (some [-2, -1, 0, 1, 3, 5]))).1).currentLap = some 1
  ∧ (loadLapsDone initApp "2023" "1" (some (some [-2, -1, 0, 1, 3, 5]))).2
      = [Req.standings "2023" "1" 1] := by
  have h := loadLaps_valid_sets_range initApp "2023" "1" [-2, -1, 0, 1, 3, 5] (by decide)
  refine ⟨h.1.trans (by decide), h.2.1.trans (by decide), h.2.2.1.trans (by decide), ?_⟩
  refine h.2.2.2.2.2.trans ?_
  decide

/-! ## Claim C8: the two empty-set failures of loadLaps -/

/-- Claim C8 counterexample: after round 1 loaded a valid lap set and
enabled the slider, switching to round 2 whose laps are all below 1
shows the `no valid lap data` error but leaves the lap slider ENABLED —
the failure branch never touches the control, so it merely keeps
whatever state it had, which is disabled only in the fresh-cascade
case. -/
theorem lap_control_not_disabled_cex :
    traceOk initApp [] invalidLapsTrace = true
  ∧ (runTrace initApp invalidLapsTrace).1.errorMessages
      = ["No valid lap data available (all laps are below 1)"]
  ∧ (runTrace initApp invalidLapsTrace).1.lapSliderDisabled = false :=
  ⟨rfl, rfl, rfl⟩

/-- Claim C8 (amended): a raw-empty (or missing) lap set reports
`No pit stop data available for this race`, a nonempty set whose
`lap >= 1` filtrate is empty reports
`No valid lap data available (all laps are below 1)`; in both cases no
standings fetch is issued and the lap control is left in whatever
enabled/disabled state it already had (so it stays disabled exactly
when a cascade reset had disabled it, not unconditionally). -/
theorem loadLaps_empty_failures (s : App) (year round : String) (laps : List Int)
    (lapsOpt : Option (List Int)) :
    (jsNonempty lapsOpt = false →
      loadLapsDone s year round (some lapsOpt)
        = (showError (hideLoadingInPanel s) "No pit stop data available for this race", []))
  ∧ (laps ≠ [] → laps.filter (fun lap => lap ≥ 1) = [] →
      loadLapsDone s year round (some (some laps))
        = (showError (hideLoadingInPanel s)
            "No valid lap data available (all laps are below 1)", []))
  ∧ ((loadLapsDone s year round (some (some laps))).1.lapSliderDisabled
      = if (laps.filter (fun lap => lap ≥ 1)).length > 0 then false
        else s.lapSliderDisabled) := by
  refine ⟨?_, ?_, ?_⟩
  · intro h
    simp [loadLapsDone, h]
  · intro h1 h2
    have hraw : jsNonempty (some laps) = true := by
      simpa [jsNonempty, List.length_pos] using h1
    simp [loadLapsDone, hraw, h2]
  · by_cases hf : (laps.filter (fun lap => lap ≥ 1)).length > 0
    · have hraw : laps.length > 0 := by
        rcases laps with _ | ⟨x, xs⟩
        · simp at hf
        · simp
      simp [loadLapsDone, jsNonempty, hraw, hf, hideLoadingInPanel,
        loadStandingsStart, showLoadingInPanel]
    · by_cases hraw : laps.length > 0
      · simp [loadLapsDone, jsNonempty, hraw, hf, hideLoadingInPanel, showError]
      · have hnil : laps = [] := by
          rcases laps with _ | ⟨x, xs⟩
          · rfl
          · simp at hraw
        subst hnil
        simp [loadLapsDone, jsNonempty, hideLoadingInPanel, showError]

/-- Claim C8 witness: in a fresh session (slider disabled by the
cascade) the all-below-1 set `[-3, -1, 0]` produces the
`no valid lap data` error, issues nothing, and the control stays
disabled. -/
theorem loadLaps_empty_failures_witness :
    loadLapsDone initApp "2023" "1" (some (some [-3, -1, 0]))
      = (showError (hideLoadingInPanel initApp)
          "No valid lap data available (all laps are below 1)", [])
  ∧ (loadLapsDone initApp "2023" "1" (some (some [-3, -1, 0]))).1.lapSliderDisabled
      = true := by
  have h := (loadLaps_empty_failures initApp "2023" "1" [-3, -1, 0] none).2.1
    (by decide) (by decide)
  refine ⟨h, ?_⟩
  rw [h]
  decide

/-! ## Claim C4: loader failure handling -/

/-- Claim C4 counterexample: a transport error on the events request
leaves the event select stuck on its `Loading...` placeholder — the
`catch` branch of `loadEvents` shows an error but never restores the
select, so this loading indicator is NOT cleared on that failure
path. -/
theorem events_error_keeps_loading_cex :
    traceOk initApp [] eventsErrorTrace = true
  ∧ (runTrace initApp eventsErrorTrace).1.eventSelectLoading = true
  ∧ (runTrace initApp eventsErrorTrace).1.eventSelectDisabled = true
  ∧ (runTrace initApp eventsErrorTrace).1.errorMessages = ["Failed to load races"] :=
  ⟨rfl, rfl, rfl, rfl⟩

/-- Claim C4 (amended): every failure path of the three loaders
surfaces exactly one visible error (`showError` replaces all existing
messages) and none of them throws (every handler is total); `loadLaps`
and `loadStandings` always clear the standings-panel spinner on their
failure paths (for `loadLaps`, on every path that issues no follow-up
fetch), and `loadEvents` clears its `Loading...` placeholder on every
arriving response including the empty one — but on a transport error it
leaves the select's loading placeholder and disabled state untouched. -/
theorem loader_failure_cleanup (s : App) (year round : String)
    (res : Option (Option (List Int))) (res2 : Option (List RaceEvent))
    (res3 : Option (Option (List StandingRow))) (m : String) :
    ((loadLapsDone s year round res).2 = [] →
      ((loadLapsDone s year round res).1).standingsPanelLoading = false)
  ∧ ((loadStandingsDone s res3).standingsPanelLoading = false)
  ∧ ((loadEventsDone s (some res2)).eventSelectLoading = false)
  ∧ ((loadEventsDone s none).eventSelectLoading = s.eventSelectLoading)
  ∧ ((loadEventsDone s none).eventSelectDisabled = s.eventSelectDisabled)
  ∧ ((showError s m).errorMessages = [m])
  ∧ ((loadEventsDone s none).errorMessages = ["Failed to load races"])
  ∧ ((loadLapsDone s year round none).1.errorMessages = ["Failed to load lap data"])
  ∧ ((loadStandingsDone s none).errorMessages = ["Failed to load driver standings"]) := by
  refine ⟨?_, ?_, ?_, ?_, ?_, rfl, rfl, rfl, ?_⟩
  · intro h
    rcases res with _ | lapsOpt
    · rfl
    · by_cases hcase : jsNonempty lapsOpt = true
      · rcases lapsOpt with _ | laps
        · simp [jsNonempty] at hcase
        · by_cases hf : ((laps.filter (fun lap => lap ≥ 1)).length > 0)
          · exfalso
            simp [loadLapsDone, jsNonempty, hcase, hf, loadStandingsStart] at h
            have hlen : laps.length > 0 := by simpa [jsNonempty] using hcase
            simp [hlen, hf] at h
          · have hlen : laps.length > 0 := by simpa [jsNonempty] using hcase
            simp [loadLapsDone, jsNonempty, hlen, hf, hideLoadingInPanel, showError]
      · simp only [Bool.not_eq_true] at hcase
        simp [loadLapsDone, hcase, hideLoadingInPanel, showError]
  · rcases res3 with _ | payload
    · rfl
    · simp [loadStandingsDone, hideLoadingInPanel, updateStandingsList,
        updateDriverSelects]
      split <;> rfl
  · simp [loadEventsDone, clearSelections, showError]
    split <;> rfl
  · rfl
  · rfl
  · rcases res3 with _ | payload
    · rfl
    · rfl

/-- Claim C4 witness: the all-below-1 laps payload issues no follow-up
request, and on that failure path the standings-panel spinner is
cleared. -/
theorem loader_failure_cleanup_witness :
    (loadLapsDone initApp "2023" "1" (some (some [0]))).2 = []
  ∧ ((loadLapsDone initApp "2023" "1" (some (some [0]))).1).standingsPanelLoading
      = false :=
  ⟨rfl, (loader_failure_cleanup initApp "2023" "1" (some (some [0])) none none "m").1 rfl⟩

/-! ## Claim C1: the invalidation cascade -/

/-- Claim C1 counterexample: in a full well-formed session (year and
race selected, laps and standings loaded, VER/HAM picked, a successful
prediction displayed), changing the race to round 2 leaves the chaser,
defender and the visible prediction result fully intact — and the
earlier year change had also left `currentRound` untouched.  The claimed
downstream invalidation on race change does not exist in the code. -/
theorem race_change_clears_nothing_cex :
    traceOk initApp [] raceChangeTrace = true
  ∧ (runTrace initApp raceChangeTrace).1.chaserDriver = some "VER"
  ∧ (runTrace initApp raceChangeTrace).1.defenderDriver = some "HAM"
  ∧ (runTrace initApp raceChangeTrace).1.predictionResultVisible = true
  ∧ (runTrace initApp raceChangeTrace).1.standings
      = [⟨1, "VER", "Red Bull", "SOFT"⟩, ⟨2, "HAM", "Mercedes", "HARD"⟩] :=
  ⟨rfl, rfl, rfl, rfl, rfl⟩

/-- Claim C1 (amended): the only downstream invalidation is
`clearSelections`, which runs when an events response arrives (success
or empty, not on transport error) and clears lap, chaser, defender and
the visible prediction result — but leaves `currentRound` and the
`standings` field untouched.  A race change and a lap change clear
nothing: driver selections, the standings field and the visible
prediction result all survive them (the lap and standings are merely
overwritten when the newly fetched data arrives). -/
theorem cascade_invalidation_amended (s : App) (evs : Option (List RaceEvent))
    (v : String) (w : Int) :
    ((loadEventsDone s (some evs)).currentLap = none)
  ∧ ((loadEventsDone s (some evs)).chaserDriver = none)
  ∧ ((loadEventsDone s (some evs)).defenderDriver = none)
  ∧ ((loadEventsDone s (some evs)).predictionResultVisible = false)
  ∧ ((loadEventsDone s (some evs)).currentRound = s.currentRound)
  ∧ ((loadEventsDone s (some evs)).standings = s.standings)
  ∧ ((loadEventsDone s none).currentLap = s.currentLap)
  ∧ ((loadEventsDone s none).chaserDriver = s.chaserDriver)
  ∧ ((loadEventsDone s none).defenderDriver = s.defenderDriver)
  ∧ ((loadEventsDone s none).predictionResultVisible = s.predictionResultVisible)
  ∧ ((onRoundInput s v).1.currentLap = s.currentLap)
  ∧ ((onRoundInput s v).1.chaserDriver = s.chaserDriver)
  ∧ ((onRoundInput s v).1.defenderDriver = s.defenderDriver)
  ∧ ((onRoundInput s v).1.standings = s.standings)
  ∧ ((onRoundInput s v).1.predictionResultVisible = s.predictionResultVisible)
  ∧ ((onLapInput s w).1.chaserDriver = s.chaserDriver)
  ∧ ((onLapInput s w).1.defenderDriver = s.defenderDriver)
  ∧ ((onLapInput s w).1.standings = s.standings)
  ∧ ((onLapInput s w).1.predictionResultVisible = s.predictionResultVisible) := by
  refine ⟨?_, ?_, ?_, ?_, ?_, ?_, rfl, rfl, rfl, rfl, ?_, ?_, ?_, ?_, ?_, ?_, ?_, ?_, ?_⟩ <;>
    first
    | (cases hje : jsNonempty evs <;>
        simp [loadEventsDone, clearSelections, showError, hje])
    | (cases hg : (strTruthy s.currentYear && strTruthy (some v)) <;>
        simp [onRoundInput, loadLapsStart, showLoadingInPanel, hg])
    | (cases hg : (strTruthy s.currentYear && strTruthy s.currentRound
          && lapTruthy (some w)) <;>
        simp [onLapInput, loadStandingsStart, showLoadingInPanel, hg])

/-! ## Claim C3: upstream keys of issued fetches -/

/-- Every request a single scheduler step issues has all of its
parameters non-empty, provided every already-issued request does (the
completion events' captured tags come from `issued`). -/
theorem step_all_paramsSet (s : App) (e : Ev) (issued : List Req)
    (hiss : issued.all reqParamsSet = true)
    (hok : (match reqOfEv e with
            | some q => decide (q ∈ issued)
            | none => true) = true) :
    ((step s e).2).all reqParamsSet = true := by
  cases e with
  | yearInput v =>
    by_cases hv : strTruthy (some v) = true
    · have hv2 : (v == "") = false := by simpa [strTruthy] using hv
      simp [step, onYearInput, loadEventsStart, hv, reqParamsSet, hv2]
    · simp only [Bool.not_eq_true] at hv
      simp [step, onYearInput, hv]
  | roundInput v =>
    cases h1 : strTruthy s.currentYear with
    | false => simp [step, onRoundInput, h1]
    | true =>
      cases h2 : strTruthy (some v) with
      | false => simp [step, onRoundInput, h1, h2]
      | true =>
        have hy := strTruthy_getD h1
        have hv2 : (v == "") = false := by simpa [strTruthy] using h2
        simp [step, onRoundInput, loadLapsStart, h1, h2, reqParamsSet, hy, hv2]
  | lapInput v =>
    cases h1 : strTruthy s.currentYear with
    | false => simp [step, onLapInput, h1]
    | true =>
      cases h2 : strTruthy s.currentRound with
      | false => simp [step, onLapInput, h1, h2]
      | true =>
        cases h3 : lapTruthy (some v) with
        | false => simp [step, onLapInput, h1, h2, h3]
        | true =>
          have hy := strTruthy_getD h1
          have hr := strTruthy_getD h2
          have hv2 : (v == 0) = false := by simpa [lapTruthy] using h3
          simp [step, onLapInput, loadStandingsStart, h1, h2, h3,
            reqParamsSet, hy, hr, hv2]
  | chaserInput v => rfl
  | defenderInput v => rfl
  | predictClick =>
    by_cases h1 : (strTruthy s.currentYear && strTruthy s.currentRound
        && lapTruthy s.currentLap) = true
    · by_cases h2 : (strTruthy s.chaserDriver && strTruthy s.defenderDriver) = true
      · by_cases h3 : (s.chaserDriver == s.defenderDriver) = true
        · simp [step, predictUndercut, validateSelection, h1, h2, h3]
        · have h1' := h1
          have h2' := h2
          simp only [Bool.and_eq_true] at h1' h2'
          have hy := strTruthy_getD h1'.1.1
          have hr := strTruthy_getD h1'.1.2
          have hl := lapTruthy_getD h1'.2
          have hc := strTruthy_getD h2'.1
          have hd := strTruthy_getD h2'.2
          simp [step, predictUndercut, validateSelection, h1, h2, h3,
            reqParamsSet, hy, hr, hl, hc, hd]
      · simp [step, predictUndercut, validateSelection, h1, h2]
    · simp [step, predictUndercut, validateSelection, h1]
  | eventsDone y res => rfl
  | lapsDone y r res =>
    have hmem : Req.laps y r ∈ issued := by
      simpa [reqOfEv] using hok
    have hparams := List.all_eq_true.mp hiss _ hmem
    simp only [reqParamsSet, Bool.and_eq_true] at hparams
    rcases res with _ | lapsOpt
    · rfl
    · by_cases hne : jsNonempty lapsOpt = true
      · rcases lapsOpt with _ | laps
        · simp [jsNonempty] at hne
        · have hlen : laps.length > 0 := by simpa [jsNonempty] using hne
          by_cases hf : ((laps.filter (fun lap => lap ≥ 1)).length > 0)
          · have hlap : (max 1 (listMin (laps.filter (fun lap => lap ≥ 1))) == 0) = false := by
              have h1le : (1 : Int) ≤ max 1 (listMin (laps.filter (fun lap => lap ≥ 1))) :=
                le_max_left _ _
              simp only [beq_eq_false_iff_ne, ne_eq]
              omega
            simp [step, loadLapsDone, jsNonempty, hlen, hf, loadStandingsStart,
              reqParamsSet, hparams.1, hparams.2, hlap]
          · simp [step, loadLapsDone, jsNonempty, hlen, hf]
      · simp only [Bool.not_eq_true] at hne
        simp [step, loadLapsDone, hne]
  | standingsDone y r l res =>
    rcases res with _ | payload
    · rfl
    · simp [step, loadStandingsDone, updateStandingsList, updateDriverSelects]
  | predictDone res =>
    rcases res with _ | r
    · rfl
    · cases r <;> rfl

/-- Along any well-formed trace, every issued request keeps all of its
parameters non-empty, generalized over the starting state and the set
of requests already in flight. -/
theorem traceOk_all_paramsSet (tr : List Ev) :
    ∀ (s : App) (issued : List Req), issued.all reqParamsSet = true →
      traceOk s issued tr = true →
      ((runTrace s tr).2).all reqParamsSet = true := by
  induction tr with
  | nil => intro s issued _ _; rfl
  | cons e es ih =>
    intro s issued hiss htr
    have hsplit : ((match reqOfEv e with
          | some q => decide (q ∈ issued)
          | none => true) = true)
        ∧ traceOk (step s e).1 (issued ++ (step s e).2) es = true := by
      simpa [traceOk, Bool.and_eq_true] using htr
    have hemit := step_all_paramsSet s e issued hiss hsplit.1
    have hiss2 : (issued ++ (step s e).2).all reqParamsSet = true := by
      simp [List.all_append, hiss, hemit]
    have hrest := ih (step s e).1 (issued ++ (step s e).2) hiss2 hsplit.2
    simp [runTrace, List.all_append, hemit, hrest]

/-- Claim C3 (amended): in every well-formed trace from the initial
state, every issued fetch — events, laps, standings or predict —
carries only non-empty selection parameters (the values that were
current and truthy when the request, or the request that chained it,
was issued).  The stronger reading of the claim — that the CURRENT
upstream selections are still set at the moment a fetch goes out — is
refuted by `chained_fetch_with_unset_round_cex`. -/
theorem fetches_have_params_set (tr : List Ev)
    (h : traceOk initApp [] tr = true) :
    ((runTrace initApp tr).2).all reqParamsSet = true :=
  traceOk_all_paramsSet tr initApp [] rfl h

/-- Claim C3 witness: a concrete well-formed trace whose issued
requests (an events fetch and a laps fetch) all carry non-empty
parameters. -/
theorem fetches_have_params_set_witness :
    traceOk initApp [] eventsOkTrace = true
  ∧ ((runTrace initApp eventsOkTrace).2).all reqParamsSet = true :=
  ⟨rfl, fetches_have_params_set eventsOkTrace rfl⟩

/-- Claim C3 counterexample: with a round-1 laps request in flight, the
user re-selects the placeholder race option (value `""`), unsetting the
round; when the laps response then arrives, its success path chains a
standings fetch for the captured year/round — issuing a fetch while the
current round selection is unset, which the claim asserts can never
happen. -/
theorem chained_fetch_with_unset_round_cex :
    traceOk initApp [] (unsetRoundPrefix ++ [lateLapsEv]) = true
  ∧ strTruthy (runTrace initApp unsetRoundPrefix).1.currentRound = false
  ∧ (step (runTrace initApp unsetRoundPrefix).1 lateLapsEv).2
      = [Req.standings "2023" "1" 1] :=
  ⟨rfl, rfl, rfl⟩

end F1App
